import Mathlib

/-!
# SteamSesh: session glue of `ASteamSeshCharacter`

A shallow embedding of the online-session part of
`Source/SteamSesh/SteamSeshCharacter.cpp`: the constructor, `CreateGameSession`,
`JoinGameSession` and the two completion callbacks `OnCreateSessionComplete` and
`OnFindSessionsComplete`.

The engine objects the character talks to are explicit state:

* `GEngine`, the global engine pointer, is an `Option UEngine`; the engine holds the
  on-screen debug messages, in the order in which they were added;
* the session interface (`IOnlineSession`) holds its named sessions, its two
  multicast delegate lists and a log of the calls made on it;
* `GetWorld()->GetFirstLocalPlayerFromController()` is an `Option ULocalPlayer`;
* dereferencing a null pointer ends the run: the functions that can do so return an
  `Outcome`, either `returned` or `crashed`, with the state reached.
-/

namespace SteamSesh

/-! ## Engine data -/

/-- Text of an `FString`. -/
abbrev FString := String

/-- An `FName`, represented by the text `ToString()` gives. -/
abbrev FName := String

/-- The engine name `NAME_GameSession`. -/
def NAME_GameSession : FName := "GameSession"

/-- The engine key `SEARCH_PRESENCE` of `Online/OnlineSessionNames.h`. -/
def SEARCH_PRESENCE : FName := "PRESENCESEARCH"

/-- The colours the character prints with. -/
inductive FColor where
  | Blue
  | Red
  | Cyan
deriving DecidableEq, Repr

/-- One call of `AddOnScreenDebugMessage(Key, TimeToDisplay, DisplayColor, DebugMessage)`. -/
structure FScreenMessage where
  Key : Int
  TimeToDisplay : Nat
  DisplayColor : FColor
  DebugMessage : FString
deriving DecidableEq, Repr

/-- The engine object behind `GEngine`: the on-screen debug messages, oldest first. -/
structure UEngine where
  ScreenMessages : List FScreenMessage
deriving DecidableEq, Repr

/-- The source always passes key `-1`, which adds a message and replaces none. -/
def UEngine.AddOnScreenDebugMessage (e : UEngine) (Key : Int) (TimeToDisplay : Nat)
    (DisplayColor : FColor) (DebugMessage : FString) : UEngine :=
  { e with ScreenMessages :=
      e.ScreenMessages ++ [⟨Key, TimeToDisplay, DisplayColor, DebugMessage⟩] }

/-- The identity of a player towards the session interface, an opaque token. -/
structure FUniqueNetId where
  Token : Nat
deriving DecidableEq, Repr

/-- A local player; `PreferredUniqueNetId` is the value of `*GetPreferredUniqueNetId()`. -/
structure ULocalPlayer where
  PreferredUniqueNetId : FUniqueNetId
deriving DecidableEq, Repr

/-- The fields of `FOnlineSessionSettings` that the character writes. -/
structure FOnlineSessionSettings where
  bIsLANMatch : Bool
  NumPublicConnections : Int
  bAllowJoinInProgress : Bool
  bAllowJoinViaPresence : Bool
  bShouldAdvertise : Bool
  bUsesPresence : Bool
  bUseLobbiesIfAvailable : Bool
deriving DecidableEq, Repr

/-- The object `new FOnlineSessionSettings()` gives: no connections, every flag off. -/
def FOnlineSessionSettings.new : FOnlineSessionSettings :=
  { bIsLANMatch := false
    NumPublicConnections := 0
    bAllowJoinInProgress := false
    bAllowJoinViaPresence := false
    bShouldAdvertise := false
    bUsesPresence := false
    bUseLobbiesIfAvailable := false }

/-- The comparison operators of `EOnlineComparisonOp`. -/
inductive EOnlineComparisonOp where
  | Equals
  | NotEquals
  | GreaterThan
  | GreaterThanEquals
  | LessThan
  | LessThanEquals
  | Near
  | In
  | NotIn
deriving DecidableEq, Repr

/-- The value of a search parameter. -/
inductive FVariantData where
  | Bool (b : Bool)
  | Int32 (i : Int)
  | String (s : FString)
deriving DecidableEq, Repr

/-- One search parameter: a value and the comparison to apply to it. -/
structure FOnlineSessionSearchParam where
  Data : FVariantData
  ComparisonOp : EOnlineComparisonOp
deriving DecidableEq, Repr

/-- The query of a search: the map `SearchParams` from key to parameter, as an
association list with one entry per key. -/
structure FOnlineSearchSettings where
  SearchParams : List (FName × FOnlineSessionSearchParam)
deriving DecidableEq, Repr

/-- Overwrites the parameter stored under `Key`, or adds one when there is none. -/
def setParam (Key : FName) (p : FOnlineSessionSearchParam) :
    List (FName × FOnlineSessionSearchParam) → List (FName × FOnlineSessionSearchParam)
  | [] => [(Key, p)]
  | (k, q) :: rest =>
      if k = Key then (k, p) :: rest else (k, q) :: setParam Key p rest

/-- The call `QuerySettings.Set(Key, Value, InType)`. -/
def FOnlineSearchSettings.Set (q : FOnlineSearchSettings) (Key : FName)
    (Value : FVariantData) (InType : EOnlineComparisonOp) : FOnlineSearchSettings :=
  { SearchParams := setParam Key ⟨Value, InType⟩ q.SearchParams }

/-- A session as the search reports it; `SessionIdStr` is the text `GetSessionIdStr()`
gives. -/
structure FOnlineSession where
  OwningUserName : FString
  SessionIdStr : FString
deriving DecidableEq, Repr

/-- One record of `SearchResults`. -/
structure FOnlineSessionSearchResult where
  Session : FOnlineSession
deriving DecidableEq, Repr

/-- The accessor `Result.GetSessionIdStr()`. -/
def FOnlineSessionSearchResult.GetSessionIdStr (r : FOnlineSessionSearchResult) : FString :=
  r.Session.SessionIdStr

/-- The fields of `FOnlineSessionSearch` that the character reads or writes. -/
structure FOnlineSessionSearch where
  SearchResults : List FOnlineSessionSearchResult
  MaxSearchResults : Int
  QuerySettings : FOnlineSearchSettings
  bIsLanQuery : Bool
deriving DecidableEq, Repr

/-! ## The session interface -/

/-- The delegate type of the create completion; the only one the source makes is
`CreateUObject(this, &ThisClass::OnCreateSessionComplete)`. -/
inductive FOnCreateSessionCompleteDelegate where
  | BoundToOnCreateSessionComplete
deriving DecidableEq, Repr

/-- The delegate type of the find completion; the only one the source makes is
`CreateUObject(this, &ThisClass::OnFindSessionsComplete)`. -/
inductive FOnFindSessionsCompleteDelegate where
  | BoundToOnFindSessionsComplete
deriving DecidableEq, Repr

/-- A session the interface knows under a name. -/
structure FNamedOnlineSession where
  SessionName : FName
deriving DecidableEq, Repr

/-- The calls the character makes on the session interface. -/
inductive SessionCall where
  | GetNamedSession (SessionName : FName)
  | DestroySession (SessionName : FName)
  | AddOnCreateSessionCompleteDelegate_Handle (d : FOnCreateSessionCompleteDelegate)
  | AddOnFindSessionsCompleteDelegate_Handle (d : FOnFindSessionsCompleteDelegate)
  | CreateSession (HostingPlayerId : FUniqueNetId) (SessionName : FName)
      (NewSessionSettings : FOnlineSessionSettings)
  | FindSessions (SearchingPlayerId : FUniqueNetId) (SearchSettings : FOnlineSessionSearch)
deriving DecidableEq, Repr

/-- The session interface: its named sessions, the delegates added to its two
multicast delegates (in the order added), and the calls received so far. The
delegate lists hold the delegates of this character. -/
structure IOnlineSession where
  Sessions : List FNamedOnlineSession
  OnCreateSessionCompleteDelegates : List FOnCreateSessionCompleteDelegate
  OnFindSessionsCompleteDelegates : List FOnFindSessionsCompleteDelegate
  Calls : List SessionCall
deriving DecidableEq, Repr

/-- Appends a call to the log. -/
def IOnlineSession.record (p : IOnlineSession) (c : SessionCall) : IOnlineSession :=
  { p with Calls := p.Calls ++ [c] }

/-- The lookup `GetNamedSession(SessionName)`: the session, or none (a null pointer). -/
def IOnlineSession.GetNamedSession (p : IOnlineSession) (SessionName : FName) :
    Option FNamedOnlineSession × IOnlineSession :=
  (p.Sessions.find? (fun n => decide (n.SessionName = SessionName)),
   p.record (.GetNamedSession SessionName))

/-- The request `DestroySession(SessionName)`; the interface carries it out later. -/
def IOnlineSession.DestroySession (p : IOnlineSession) (SessionName : FName) :
    IOnlineSession :=
  p.record (.DestroySession SessionName)

/-- Adds a delegate to the create-completion multicast delegate. -/
def IOnlineSession.AddOnCreateSessionCompleteDelegate_Handle (p : IOnlineSession)
    (d : FOnCreateSessionCompleteDelegate) : IOnlineSession :=
  { p with
    OnCreateSessionCompleteDelegates := p.OnCreateSessionCompleteDelegates ++ [d]
    Calls := p.Calls ++ [.AddOnCreateSessionCompleteDelegate_Handle d] }

/-- Adds a delegate to the find-completion multicast delegate. -/
def IOnlineSession.AddOnFindSessionsCompleteDelegate_Handle (p : IOnlineSession)
    (d : FOnFindSessionsCompleteDelegate) : IOnlineSession :=
  { p with
    OnFindSessionsCompleteDelegates := p.OnFindSessionsCompleteDelegates ++ [d]
    Calls := p.Calls ++ [.AddOnFindSessionsCompleteDelegate_Handle d] }

/-- The request `CreateSession(HostingPlayerId, SessionName, NewSessionSettings)`. -/
def IOnlineSession.CreateSession (p : IOnlineSession) (HostingPlayerId : FUniqueNetId)
    (SessionName : FName) (NewSessionSettings : FOnlineSessionSettings) : IOnlineSession :=
  p.record (.CreateSession HostingPlayerId SessionName NewSessionSettings)

/-- The request `FindSessions(SearchingPlayerId, SearchSettings)`. -/
def IOnlineSession.FindSessions (p : IOnlineSession) (SearchingPlayerId : FUniqueNetId)
    (SearchSettings : FOnlineSessionSearch) : IOnlineSession :=
  p.record (.FindSessions SearchingPlayerId SearchSettings)

/-- The online subsystem `IOnlineSubsystem::Get()` gives. -/
structure IOnlineSubsystem where
  SubsystemName : FName
  SessionInterface : Option IOnlineSession
deriving DecidableEq, Repr

/-! ## The character -/

/-- The session members of `ASteamSeshCharacter`. -/
structure ASteamSeshCharacter where
  OnlineSessionInterface : Option IOnlineSession
  SessionSearch : Option FOnlineSessionSearch
  CreateSessionCompleteDelegate : FOnCreateSessionCompleteDelegate
  FindSessionsCompleteDelegate : FOnFindSessionsCompleteDelegate
deriving DecidableEq, Repr

/-- The character and the engine objects it reaches. `NewSessionSearch` is the object
`new FOnlineSessionSearch()` gives: the constructor is the engine's. -/
structure State where
  GEngine : Option UEngine
  FirstLocalPlayerFromController : Option ULocalPlayer
  NewSessionSearch : FOnlineSessionSearch
  This : ASteamSeshCharacter
deriving DecidableEq, Repr

/-- How a call ends: it returns, or it dereferences a null pointer. -/
inductive Outcome where
  | returned (s : State)
  | crashed (s : State)
deriving DecidableEq, Repr

/-- The state a call ended in. -/
def Outcome.state : Outcome → State
  | .returned s => s
  | .crashed s => s

/-- The guarded print `if (GEngine) GEngine->AddOnScreenDebugMessage(-1, 15.0f, c, m)`. -/
def printOnScreen (g : Option UEngine) (c : FColor) (m : FString) : Option UEngine :=
  match g with
  | some e => some (e.AddOnScreenDebugMessage (-1) 15 c m)
  | none => none

/-- The session part of the constructor `ASteamSeshCharacter::ASteamSeshCharacter()`. -/
def ASteamSeshCharacter.construct (GEngine : Option UEngine)
    (OnlineSubsystem : Option IOnlineSubsystem)
    (FirstLocalPlayerFromController : Option ULocalPlayer)
    (NewSessionSearch : FOnlineSessionSearch) : State :=
  let This : ASteamSeshCharacter :=
    { OnlineSessionInterface := none
      SessionSearch := none
      CreateSessionCompleteDelegate := .BoundToOnCreateSessionComplete
      FindSessionsCompleteDelegate := .BoundToOnFindSessionsComplete }
  match OnlineSubsystem with
  | some sub =>
      { GEngine := printOnScreen GEngine .Blue ("Found subsystem " ++ sub.SubsystemName)
        FirstLocalPlayerFromController := FirstLocalPlayerFromController
        NewSessionSearch := NewSessionSearch
        This := { This with OnlineSessionInterface := sub.SessionInterface } }
  | none =>
      { GEngine := GEngine
        FirstLocalPlayerFromController := FirstLocalPlayerFromController
        NewSessionSearch := NewSessionSearch
        This := This }

/-- The settings `CreateGameSession` builds. -/
def CreateGameSession_SessionSettings : FOnlineSessionSettings :=
  let SessionSettings := FOnlineSessionSettings.new
  let SessionSettings := { SessionSettings with bIsLANMatch := false }
  let SessionSettings := { SessionSettings with NumPublicConnections := 4 }
  let SessionSettings := { SessionSettings with bAllowJoinInProgress := true }
  let SessionSettings := { SessionSettings with bAllowJoinViaPresence := true }
  let SessionSettings := { SessionSettings with bShouldAdvertise := true }
  let SessionSettings := { SessionSettings with bUsesPresence := true }
  let SessionSettings := { SessionSettings with bUseLobbiesIfAvailable := true }
  SessionSettings

/-- The method `ASteamSeshCharacter::CreateGameSession()`. -/
def CreateGameSession (s : State) : Outcome :=
  match s.This.OnlineSessionInterface with
  | none => .returned s
  | some osi =>
      let (ExistingSession, osi) := osi.GetNamedSession NAME_GameSession
      let osi :=
        match ExistingSession with
        | some _ => osi.DestroySession NAME_GameSession
        | none => osi
      let osi := osi.AddOnCreateSessionCompleteDelegate_Handle
        s.This.CreateSessionCompleteDelegate
      let SessionSettings := CreateGameSession_SessionSettings
      match s.FirstLocalPlayerFromController with
      | none =>
          .crashed { s with This := { s.This with OnlineSessionInterface := some osi } }
      | some LocalPlayer =>
          let osi := osi.CreateSession LocalPlayer.PreferredUniqueNetId NAME_GameSession
            SessionSettings
          .returned { s with This := { s.This with OnlineSessionInterface := some osi } }

/-- The search object `JoinGameSession` builds from a new one. -/
def JoinGameSession_SessionSearch (fresh : FOnlineSessionSearch) : FOnlineSessionSearch :=
  let SessionSearch := fresh
  let SessionSearch := { SessionSearch with MaxSearchResults := 10000 }
  let SessionSearch := { SessionSearch with bIsLanQuery := false }
  let SessionSearch := { SessionSearch with
    QuerySettings :=
      SessionSearch.QuerySettings.Set SEARCH_PRESENCE (.Bool true) .Equals }
  SessionSearch

/-- The method `ASteamSeshCharacter::JoinGameSession()`. -/
def JoinGameSession (s : State) : Outcome :=
  match s.This.OnlineSessionInterface with
  | none => .returned s
  | some osi =>
      let osi := osi.AddOnFindSessionsCompleteDelegate_Handle
        s.This.FindSessionsCompleteDelegate
      let SessionSearch := JoinGameSession_SessionSearch s.NewSessionSearch
      match s.FirstLocalPlayerFromController with
      | none =>
          .crashed { s with
            This := { s.This with
              OnlineSessionInterface := some osi
              SessionSearch := some SessionSearch } }
      | some LocalPlayer =>
          let osi := osi.FindSessions LocalPlayer.PreferredUniqueNetId SessionSearch
          .returned { s with
            This := { s.This with
              OnlineSessionInterface := some osi
              SessionSearch := some SessionSearch } }

/-- The callback `ASteamSeshCharacter::OnCreateSessionComplete(SessionName, wasSuccessful)`. -/
def OnCreateSessionComplete (SessionName : FName) (wasSuccessful : Bool) (s : State) :
    State :=
  if wasSuccessful then
    { s with GEngine := printOnScreen s.GEngine .Blue ("Created session: " ++ SessionName) }
  else
    { s with GEngine := printOnScreen s.GEngine .Red "Failed to create session!" }

/-- The body of the loop of `OnFindSessionsComplete`, for one record. -/
def OnFindSessionsComplete_body (g : Option UEngine) (Result : FOnlineSessionSearchResult) :
    Option UEngine :=
  let Id := Result.GetSessionIdStr
  let User := Result.Session.OwningUserName
  printOnScreen g .Cyan ("Id: " ++ Id ++ ", User: " ++ User)

/-- The callback `ASteamSeshCharacter::OnFindSessionsComplete(wasSuccessful)`: the loop
runs over `SessionSearch->SearchResults`; a null `SessionSearch` is dereferenced. -/
def OnFindSessionsComplete (_wasSuccessful : Bool) (s : State) : Outcome :=
  match s.This.SessionSearch with
  | none => .crashed s
  | some SessionSearch =>
      .returned { s with
        GEngine := SessionSearch.SearchResults.foldl OnFindSessionsComplete_body s.GEngine }

/-! ## Completion signalled by the session interface -/

/-- Runs `f` on the state of a call that returned; a crashed run stays crashed. -/
def Outcome.andThen (o : Outcome) (f : State → Outcome) : Outcome :=
  match o with
  | .returned s => f s
  | .crashed s => .crashed s

/-- Executes a create-completion delegate: it is bound to `OnCreateSessionComplete`. -/
def FOnCreateSessionCompleteDelegate.Execute (d : FOnCreateSessionCompleteDelegate)
    (SessionName : FName) (wasSuccessful : Bool) (s : State) : State :=
  match d with
  | .BoundToOnCreateSessionComplete => OnCreateSessionComplete SessionName wasSuccessful s

/-- Executes a find-completion delegate: it is bound to `OnFindSessionsComplete`. -/
def FOnFindSessionsCompleteDelegate.Execute (d : FOnFindSessionsCompleteDelegate)
    (wasSuccessful : Bool) (s : State) : Outcome :=
  match d with
  | .BoundToOnFindSessionsComplete => OnFindSessionsComplete wasSuccessful s

/-- Executes the added find-completion delegates one after the other. -/
def broadcastFind (wasSuccessful : Bool) :
    List FOnFindSessionsCompleteDelegate → State → Outcome
  | [], s => .returned s
  | d :: ds, s => (d.Execute wasSuccessful s).andThen (broadcastFind wasSuccessful ds)

/-- The interface signals a create completion to every added delegate. -/
def TriggerOnCreateSessionCompleteDelegates (SessionName : FName) (wasSuccessful : Bool)
    (s : State) : State :=
  match s.This.OnlineSessionInterface with
  | none => s
  | some osi =>
      osi.OnCreateSessionCompleteDelegates.foldl
        (fun s d => d.Execute SessionName wasSuccessful s) s

/-- The interface signals a find completion to every added delegate. -/
def TriggerOnFindSessionsCompleteDelegates (wasSuccessful : Bool) (s : State) : Outcome :=
  match s.This.OnlineSessionInterface with
  | none => .returned s
  | some osi => broadcastFind wasSuccessful osi.OnFindSessionsCompleteDelegates s

/-- The interface writes the records it found into the search object it was handed,
the one `SessionSearch` points to. -/
def SearchResultsArrive (L : List FOnlineSessionSearchResult) (s : State) : State :=
  match s.This.SessionSearch with
  | none => s
  | some SessionSearch =>
      { s with This := { s.This with
          SessionSearch := some { SessionSearch with SearchResults := L } } }

/-- The interface replaces its named sessions (a create or a destroy it has carried out). -/
def SessionsChange (l : List FNamedOnlineSession) (s : State) : State :=
  match s.This.OnlineSessionInterface with
  | none => s
  | some osi =>
      { s with This := { s.This with OnlineSessionInterface := some { osi with Sessions := l } } }

/-- The engine pointer and the local player of the controller change. -/
def WorldChanges (GEngine : Option UEngine) (LocalPlayer : Option ULocalPlayer) (s : State) :
    State :=
  { s with GEngine := GEngine, FirstLocalPlayerFromController := LocalPlayer }

/-- What can happen to a constructed character: a call of one of its two methods, an
action of the session interface, or a change of the world around it. -/
inductive Event where
  | CreateGameSession
  | JoinGameSession
  | CreateSessionComplete (SessionName : FName) (wasSuccessful : Bool)
  | FindSessionsComplete (wasSuccessful : Bool)
  | SearchResultsArrive (L : List FOnlineSessionSearchResult)
  | SessionsChange (l : List FNamedOnlineSession)
  | WorldChanges (GEngine : Option UEngine) (LocalPlayer : Option ULocalPlayer)
deriving DecidableEq, Repr

/-- The effect of one event. -/
def Event.apply (ev : Event) (s : State) : Outcome :=
  match ev with
  | .CreateGameSession => SteamSesh.CreateGameSession s
  | .JoinGameSession => SteamSesh.JoinGameSession s
  | .CreateSessionComplete SessionName wasSuccessful =>
      .returned (TriggerOnCreateSessionCompleteDelegates SessionName wasSuccessful s)
  | .FindSessionsComplete wasSuccessful =>
      TriggerOnFindSessionsCompleteDelegates wasSuccessful s
  | .SearchResultsArrive L => .returned (SteamSesh.SearchResultsArrive L s)
  | .SessionsChange l => .returned (SteamSesh.SessionsChange l s)
  | .WorldChanges g lp => .returned (SteamSesh.WorldChanges g lp s)

/-- The events of a list, one after the other, as long as none crashes. -/
def runEvents : List Event → State → Outcome
  | [], s => .returned s
  | ev :: evs, s => (ev.apply s).andThen (runEvents evs)

/-- The states a character can be in: it is constructed on a session interface to
which it has not yet added a find-completion delegate, and then goes through events
that return. -/
inductive Reachable : State → Prop where
  | constructed (GEngine : Option UEngine) (OnlineSubsystem : Option IOnlineSubsystem)
      (FirstLocalPlayerFromController : Option ULocalPlayer)
      (NewSessionSearch : FOnlineSessionSearch)
      (hnew : ∀ sub osi, OnlineSubsystem = some sub → sub.SessionInterface = some osi →
        osi.OnFindSessionsCompleteDelegates = []) :
      Reachable (ASteamSeshCharacter.construct GEngine OnlineSubsystem
        FirstLocalPlayerFromController NewSessionSearch)
  | step (s s' : State) (ev : Event) (hs : Reachable s) (hev : ev.apply s = .returned s') :
      Reachable s'

/-! ## What a call is seen to do -/

/-- The log of the session interface the character holds; empty when it holds none. -/
def callsOf (s : State) : List SessionCall :=
  match s.This.OnlineSessionInterface with
  | some osi => osi.Calls
  | none => []

/-- The calls a run starting in `s` and ending as `o` made on the session interface. -/
def issuedBy (s : State) (o : Outcome) : List SessionCall :=
  (callsOf o.state).drop (callsOf s).length

/-- The on-screen messages; none without an engine. -/
def screenOf (s : State) : List FScreenMessage :=
  match s.GEngine with
  | some e => e.ScreenMessages
  | none => []

/-- The messages a run starting in `s` and ending as `o` put on the screen. -/
def surfacedBy (s : State) (o : Outcome) : List FScreenMessage :=
  (screenOf o.state).drop (screenOf s).length

/-- Recognises a `DestroySession` call. -/
def isDestroySession : SessionCall → Bool
  | .DestroySession _ => true
  | _ => false

/-- Recognises a `CreateSession` call. -/
def isCreateSession : SessionCall → Bool
  | .CreateSession _ _ _ => true
  | _ => false

/-- The message `OnFindSessionsComplete` prints for one record. -/
def searchResultMessage (r : FOnlineSessionSearchResult) : FScreenMessage :=
  { Key := -1
    TimeToDisplay := 15
    DisplayColor := .Cyan
    DebugMessage := "Id: " ++ r.GetSessionIdStr ++ ", User: " ++ r.Session.OwningUserName }

/-- The error values of the specification's `SessionError`. -/
inductive SessionError where
  | ProviderUnavailable
  | Busy
  | CreateFailed
  | FindFailed
deriving DecidableEq, Repr

/-- The specification's wording of a request, `Result<Void, SessionError>`: without a
provider it fails at once with `ProviderUnavailable`. -/
def Request_spec (s : State) : Except SessionError Unit :=
  match s.This.OnlineSessionInterface with
  | none => .error .ProviderUnavailable
  | some _ => .ok ()

/-- What a call hands to its caller. Both methods are declared `void`: a call that
returns hands back no error, the success value of `Result<Void, SessionError>`; a
crashed call hands back nothing. -/
def Outcome.handedBack : Outcome → Option (Except SessionError Unit)
  | .returned _ => some (.ok ())
  | .crashed _ => none

/-- Two calls of `JoinGameSession`, then the records `L` arrive in the current search
object and the interface signals the find completion. -/
def joinTwiceThenComplete (L : List FOnlineSessionSearchResult) (wasSuccessful : Bool)
    (s : State) : Outcome :=
  (JoinGameSession s).andThen fun s1 =>
    (JoinGameSession s1).andThen fun s2 =>
      TriggerOnFindSessionsCompleteDelegates wasSuccessful (SearchResultsArrive L s2)

/-! ## Concrete states -/

/-- A search object with no records and no parameters. -/
def emptySearch : FOnlineSessionSearch :=
  { SearchResults := [], MaxSearchResults := 1, QuerySettings := ⟨[]⟩, bIsLanQuery := false }

/-- A session interface with no session, no delegate and no call so far. -/
def idleInterface : IOnlineSession :=
  { Sessions := [], OnCreateSessionCompleteDelegates := [],
    OnFindSessionsCompleteDelegates := [], Calls := [] }

/-- A session interface that knows a session named `NAME_GameSession`. -/
def hostingInterface : IOnlineSession :=
  { idleInterface with Sessions := [⟨NAME_GameSession⟩] }

/-- A local player. -/
def playerOne : ULocalPlayer := ⟨⟨1⟩⟩

/-- The record with id `A` and user `alice`. -/
def recordA : FOnlineSessionSearchResult := ⟨⟨"alice", "A"⟩⟩

/-- The record with id `B` and user `bob`. -/
def recordB : FOnlineSessionSearchResult := ⟨⟨"bob", "B"⟩⟩

/-- A character with the given engine, player, interface and search object. -/
def mkState (g : Option UEngine) (lp : Option ULocalPlayer) (osi : Option IOnlineSession)
    (search : Option FOnlineSessionSearch) : State :=
  { GEngine := g
    FirstLocalPlayerFromController := lp
    NewSessionSearch := emptySearch
    This :=
      { OnlineSessionInterface := osi
        SessionSearch := search
        CreateSessionCompleteDelegate := .BoundToOnCreateSessionComplete
        FindSessionsCompleteDelegate := .BoundToOnFindSessionsComplete } }

/-- Engine present, player present, interface with an existing `NAME_GameSession`. -/
def hostingState : State := mkState (some ⟨[]⟩) (some playerOne) (some hostingInterface) none

/-- Engine present, player present, idle interface, no search yet. -/
def readyState : State := mkState (some ⟨[]⟩) (some playerOne) (some idleInterface) none

/-- As `readyState`, but the controller has no local player. -/
def noPlayerState : State := mkState (some ⟨[]⟩) none (some idleInterface) none

/-- No session interface; an earlier search object is still held. -/
def noProviderState : State :=
  mkState (some ⟨[]⟩) (some playerOne) none (some { emptySearch with SearchResults := [recordA] })

/-- Engine present; the search object holds the records `A`/`alice` and `B`/`bob`. -/
def twoResultsState : State :=
  mkState (some ⟨[]⟩) (some playerOne) (some idleInterface)
    (some { emptySearch with SearchResults := [recordA, recordB] })

/-- As `twoResultsState`, but `GEngine` is null. -/
def twoResultsNoEngineState : State :=
  mkState none (some playerOne) (some idleInterface)
    (some { emptySearch with SearchResults := [recordA, recordB] })

/-- Engine present; the search object holds the record `A`/`alice`. -/
def oneResultState : State :=
  mkState (some ⟨[]⟩) (some playerOne) (some idleInterface)
    (some { emptySearch with SearchResults := [recordA] })

/-- As `readyState`, but `GEngine` is null. -/
def noEngineState : State := mkState none (some playerOne) (some idleInterface) none

/-- A character constructed on an idle Steam session interface. -/
def constructedState : State :=
  ASteamSeshCharacter.construct (some ⟨[]⟩) (some ⟨"STEAM", some idleInterface⟩)
    (some playerOne) emptySearch

/-- The state of `constructedState` after one call of `JoinGameSession`. -/
def joinedState : State := (JoinGameSession constructedState).state

theorem issuedBy_returned (s s' : State) (osi osi' : IOnlineSession) (cs : List SessionCall)
    (h : s.This.OnlineSessionInterface = some osi)
    (h' : s'.This.OnlineSessionInterface = some osi')
    (hc : osi'.Calls = osi.Calls ++ cs) :
    issuedBy s (.returned s') = cs := by
  simp [issuedBy, callsOf, Outcome.state, h, h', hc]

/-! ## CreateGameSession -/

/-- The calls of `CreateGameSession` when the interface is valid and a local player
exists: the lookup, a destroy call if the lookup found a session, the registration,
the create call. -/
theorem CreateGameSession_calls
    (s : State) (osi : IOnlineSession) (LocalPlayer : ULocalPlayer)
    (hosi : s.This.OnlineSessionInterface = some osi)
    (hlp : s.FirstLocalPlayerFromController = some LocalPlayer) :
    (∃ s', CreateGameSession s = .returned s') ∧
    issuedBy s (CreateGameSession s) =
      SessionCall.GetNamedSession NAME_GameSession ::
        ((if (osi.GetNamedSession NAME_GameSession).1.isSome = true
          then [SessionCall.DestroySession NAME_GameSession] else []) ++
        [ .AddOnCreateSessionCompleteDelegate_Handle s.This.CreateSessionCompleteDelegate,
          .CreateSession LocalPlayer.PreferredUniqueNetId NAME_GameSession
            CreateGameSession_SessionSettings ]) := by
  refine ⟨by simp [CreateGameSession, hosi, hlp], ?_⟩
  cases hex : (osi.GetNamedSession NAME_GameSession).1 with
  | none =>
      simp only [IOnlineSession.GetNamedSession] at hex
      simp only [CreateGameSession, hosi, hlp, IOnlineSession.GetNamedSession, hex]
      exact issuedBy_returned s _ osi _ _ hosi rfl (by
        simp [IOnlineSession.CreateSession, IOnlineSession.record,
          IOnlineSession.AddOnCreateSessionCompleteDelegate_Handle])
  | some n =>
      simp only [IOnlineSession.GetNamedSession] at hex
      simp only [CreateGameSession, hosi, hlp, IOnlineSession.GetNamedSession, hex]
      exact issuedBy_returned s _ osi _ _ hosi rfl (by
        simp [IOnlineSession.CreateSession, IOnlineSession.record,
          IOnlineSession.AddOnCreateSessionCompleteDelegate_Handle,
          IOnlineSession.DestroySession])

/-- Claim C1, as amended: with a valid session interface and a local player,
`CreateGameSession` returns, and the calls it makes on the interface are, in this
order, the lookup of `NAME_GameSession`, one `DestroySession(NAME_GameSession)` if and
only if the lookup found a session, the registration of the create delegate, and one
`CreateSession`; so a found session is destroyed exactly once and before the create
call, and without one no destroy call is made and the create call is still made once. -/
theorem CreateGameSession_destroys_existing_once_before_create
    (s : State) (osi : IOnlineSession) (LocalPlayer : ULocalPlayer)
    (hosi : s.This.OnlineSessionInterface = some osi)
    (hlp : s.FirstLocalPlayerFromController = some LocalPlayer) :
    (∃ s', CreateGameSession s = .returned s') ∧
    ((osi.GetNamedSession NAME_GameSession).1.isSome = true →
      issuedBy s (CreateGameSession s) =
        [ .GetNamedSession NAME_GameSession,
          .DestroySession NAME_GameSession,
          .AddOnCreateSessionCompleteDelegate_Handle s.This.CreateSessionCompleteDelegate,
          .CreateSession LocalPlayer.PreferredUniqueNetId NAME_GameSession
            CreateGameSession_SessionSettings ] ∧
      (issuedBy s (CreateGameSession s)).countP isDestroySession = 1 ∧
      (issuedBy s (CreateGameSession s)).countP isCreateSession = 1 ∧
      ((issuedBy s (CreateGameSession s)).takeWhile
        (fun c => !isCreateSession c)).countP isDestroySession = 1) ∧
    ((osi.GetNamedSession NAME_GameSession).1 = none →
      issuedBy s (CreateGameSession s) =
        [ .GetNamedSession NAME_GameSession,
          .AddOnCreateSessionCompleteDelegate_Handle s.This.CreateSessionCompleteDelegate,
          .CreateSession LocalPlayer.PreferredUniqueNetId NAME_GameSession
            CreateGameSession_SessionSettings ] ∧
      (issuedBy s (CreateGameSession s)).countP isDestroySession = 0 ∧
      (issuedBy s (CreateGameSession s)).countP isCreateSession = 1) := by
  obtain ⟨hret, hcalls⟩ := CreateGameSession_calls s osi LocalPlayer hosi hlp
  refine ⟨hret, ?_, ?_⟩
  · intro hex
    rw [hcalls, if_pos hex]
    simp [isDestroySession, isCreateSession, List.takeWhile]
  · intro hex
    rw [hcalls, if_neg (by simp [hex])]
    simp [isDestroySession, isCreateSession]

/-- Witness for C1: the interface of `hostingState` knows `NAME_GameSession`, and the
calls made are lookup, destroy, registration, create. -/
theorem CreateGameSession_destroys_existing_once_before_create_witness :
    hostingState.This.OnlineSessionInterface = some hostingInterface ∧
    hostingState.FirstLocalPlayerFromController = some playerOne ∧
    (hostingInterface.GetNamedSession NAME_GameSession).1.isSome = true ∧
    issuedBy hostingState (CreateGameSession hostingState) =
      [ .GetNamedSession "GameSession",
        .DestroySession "GameSession",
        .AddOnCreateSessionCompleteDelegate_Handle .BoundToOnCreateSessionComplete,
        .CreateSession ⟨1⟩ "GameSession" CreateGameSession_SessionSettings ] :=
  ⟨rfl, rfl, by decide,
    ((CreateGameSession_destroys_existing_once_before_create hostingState hostingInterface
      playerOne rfl rfl).2.1 (by decide)).1⟩

/-- Counterexample to C1 as stated: the session interface is valid and knows no
`NAME_GameSession`, but the controller has no local player; the call dereferences the
null player after the registration, does not return, and makes no `CreateSession`
call. -/
theorem CreateGameSession_without_local_player_makes_no_create_call :
    noPlayerState.This.OnlineSessionInterface = some idleInterface ∧
    (idleInterface.GetNamedSession NAME_GameSession).1 = none ∧
    (∀ s', CreateGameSession noPlayerState ≠ .returned s') ∧
    issuedBy noPlayerState (CreateGameSession noPlayerState) =
      [ .GetNamedSession "GameSession",
        .AddOnCreateSessionCompleteDelegate_Handle .BoundToOnCreateSessionComplete ] ∧
    (issuedBy noPlayerState (CreateGameSession noPlayerState)).countP isCreateSession ≠ 1 := by
  refine ⟨rfl, by decide, ?_, by decide, by decide⟩
  intro s' h
  simp [CreateGameSession, noPlayerState, mkState] at h

/-- Claim C8: with a valid session interface and a local player, `CreateGameSession`
makes exactly one `CreateSession` call, for the player's identity, under the name
`NAME_GameSession` (`GameSession`), with the settings: not a LAN match, 4 public
connections, join in progress allowed, join via presence allowed, advertised,
presence used, lobbies used if available. Nothing of the earlier state enters the
settings or the name. -/
theorem CreateGameSession_passes_fixed_settings
    (s : State) (osi : IOnlineSession) (LocalPlayer : ULocalPlayer)
    (hosi : s.This.OnlineSessionInterface = some osi)
    (hlp : s.FirstLocalPlayerFromController = some LocalPlayer) :
    (issuedBy s (CreateGameSession s)).filter isCreateSession =
      [ .CreateSession LocalPlayer.PreferredUniqueNetId "GameSession"
          { bIsLANMatch := false
            NumPublicConnections := 4
            bAllowJoinInProgress := true
            bAllowJoinViaPresence := true
            bShouldAdvertise := true
            bUsesPresence := true
            bUseLobbiesIfAvailable := true } ] ∧
    NAME_GameSession = "GameSession" := by
  refine ⟨?_, rfl⟩
  rw [(CreateGameSession_calls s osi LocalPlayer hosi hlp).2]
  by_cases hex : (osi.GetNamedSession NAME_GameSession).1.isSome = true
  · rw [if_pos hex]
    simp [isCreateSession, List.filter, CreateGameSession_SessionSettings,
      FOnlineSessionSettings.new, NAME_GameSession]
  · rw [if_neg hex]
    simp [isCreateSession, List.filter, CreateGameSession_SessionSettings,
      FOnlineSessionSettings.new, NAME_GameSession]

/-- Witness for C8, in a state whose interface already knows a session. -/
theorem CreateGameSession_passes_fixed_settings_witness :
    hostingState.This.OnlineSessionInterface = some hostingInterface ∧
    hostingState.FirstLocalPlayerFromController = some playerOne ∧
    (issuedBy hostingState (CreateGameSession hostingState)).filter isCreateSession =
      [ .CreateSession ⟨1⟩ "GameSession" ⟨false, 4, true, true, true, true, true⟩ ] :=
  ⟨rfl, rfl,
    (CreateGameSession_passes_fixed_settings hostingState hostingInterface playerOne
      rfl rfl).1⟩

/-! ## JoinGameSession -/

/-- The calls and the search object of `JoinGameSession` when the interface is valid
and a local player exists. -/
theorem JoinGameSession_calls (s : State) (osi : IOnlineSession) (LocalPlayer : ULocalPlayer)
    (hosi : s.This.OnlineSessionInterface = some osi)
    (hlp : s.FirstLocalPlayerFromController = some LocalPlayer) :
    JoinGameSession s = .returned { s with
      This := { s.This with
        OnlineSessionInterface := some
          { osi with
            OnFindSessionsCompleteDelegates :=
              osi.OnFindSessionsCompleteDelegates ++ [s.This.FindSessionsCompleteDelegate]
            Calls := osi.Calls ++
              [ .AddOnFindSessionsCompleteDelegate_Handle s.This.FindSessionsCompleteDelegate,
                .FindSessions LocalPlayer.PreferredUniqueNetId
                  (JoinGameSession_SessionSearch s.NewSessionSearch) ] }
        SessionSearch := some (JoinGameSession_SessionSearch s.NewSessionSearch) } } := by
  simp [JoinGameSession, hosi, hlp, IOnlineSession.FindSessions, IOnlineSession.record,
    IOnlineSession.AddOnFindSessionsCompleteDelegate_Handle]

/-- Claim C2, as amended: without a session interface both methods return at once and
hand back no error value (they are `void`); no call is made on any interface, nothing
is put on the screen, and the whole state, `SessionSearch` included, is as before. -/
theorem requests_without_interface_return_unchanged (s : State)
    (h : s.This.OnlineSessionInterface = none) :
    CreateGameSession s = .returned s ∧
    JoinGameSession s = .returned s ∧
    (CreateGameSession s).handedBack = some (.ok ()) ∧
    (JoinGameSession s).handedBack = some (.ok ()) ∧
    issuedBy s (CreateGameSession s) = [] ∧
    issuedBy s (JoinGameSession s) = [] ∧
    surfacedBy s (CreateGameSession s) = [] ∧
    surfacedBy s (JoinGameSession s) = [] ∧
    (CreateGameSession s).state.This.SessionSearch = s.This.SessionSearch ∧
    (JoinGameSession s).state.This.SessionSearch = s.This.SessionSearch := by
  have hc : CreateGameSession s = .returned s := by simp [CreateGameSession, h]
  have hj : JoinGameSession s = .returned s := by simp [JoinGameSession, h]
  simp [hc, hj, Outcome.handedBack, issuedBy, surfacedBy, Outcome.state]

/-- Witness for C2: `noProviderState` has no interface and holds an earlier search. -/
theorem requests_without_interface_return_unchanged_witness :
    noProviderState.This.OnlineSessionInterface = none ∧
    CreateGameSession noProviderState = .returned noProviderState ∧
    JoinGameSession noProviderState = .returned noProviderState :=
  ⟨rfl, (requests_without_interface_return_unchanged noProviderState rfl).1,
    (requests_without_interface_return_unchanged noProviderState rfl).2.1⟩

/-- Counterexample to C2 as stated: in `noProviderState` the specification's request
fails with `ProviderUnavailable`, while neither method hands back that error: each
returns with the success value of a `void` call. -/
theorem requests_without_interface_report_no_error :
    noProviderState.This.OnlineSessionInterface = none ∧
    Request_spec noProviderState = .error .ProviderUnavailable ∧
    (CreateGameSession noProviderState).handedBack ≠ some (Request_spec noProviderState) ∧
    (JoinGameSession noProviderState).handedBack ≠ some (Request_spec noProviderState) ∧
    (CreateGameSession noProviderState).handedBack = some (.ok ()) ∧
    (JoinGameSession noProviderState).handedBack = some (.ok ()) := by
  refine ⟨rfl, rfl, ?_, ?_, rfl, rfl⟩
  · intro h
    have h' : (some (Except.ok ()) : Option (Except SessionError Unit)) =
        some (.error .ProviderUnavailable) := h
    cases h'
  · intro h
    have h' : (some (Except.ok ()) : Option (Except SessionError Unit)) =
        some (.error .ProviderUnavailable) := h
    cases h'

/-! ## OnFindSessionsComplete -/

theorem foldl_body_some (L : List FOnlineSessionSearchResult) (e : UEngine) :
    L.foldl OnFindSessionsComplete_body (some e) =
      some ⟨e.ScreenMessages ++ L.map searchResultMessage⟩ := by
  induction L generalizing e with
  | nil => simp
  | cons r rest ih =>
      simp [List.foldl, OnFindSessionsComplete_body, printOnScreen,
        UEngine.AddOnScreenDebugMessage, ih, searchResultMessage]

theorem foldl_body_none (L : List FOnlineSessionSearchResult) :
    L.foldl OnFindSessionsComplete_body none = none := by
  induction L with
  | nil => rfl
  | cons r rest ih => simpa [List.foldl, OnFindSessionsComplete_body, printOnScreen] using ih

/-- The callback with an engine and a search object: one message per record is added,
whatever `wasSuccessful` is. -/
theorem OnFindSessionsComplete_prints (wasSuccessful : Bool) (s : State) (e : UEngine)
    (SessionSearch : FOnlineSessionSearch)
    (hE : s.GEngine = some e) (hS : s.This.SessionSearch = some SessionSearch) :
    OnFindSessionsComplete wasSuccessful s = .returned { s with
      GEngine := some
        ⟨e.ScreenMessages ++ SessionSearch.SearchResults.map searchResultMessage⟩ } := by
  simp [OnFindSessionsComplete, hS, hE, foldl_body_some]

theorem surfacedBy_returned (s s' : State) (e : UEngine) (ms : List FScreenMessage)
    (hE : s.GEngine = some e) (hE' : s'.GEngine = some ⟨e.ScreenMessages ++ ms⟩) :
    surfacedBy s (.returned s') = ms := by
  simp [surfacedBy, screenOf, Outcome.state, hE, hE']

/-- Claim C3, as amended: when `SessionSearch` holds the records `L`,
`OnFindSessionsComplete(true)` returns. When `GEngine` is not null it changes nothing
but the screen, on which it puts exactly `length L` messages; the `i`-th is the cyan
message with the session id string and the owning user name of the `i`-th record, in
the order of `L`. When `GEngine` is null it changes nothing and nothing is put on the
screen. -/
theorem OnFindSessionsComplete_surfaces_each_result_in_order
    (s : State) (SessionSearch : FOnlineSessionSearch)
    (hS : s.This.SessionSearch = some SessionSearch) :
    (∃ s', OnFindSessionsComplete true s = .returned s') ∧
    (∀ e, s.GEngine = some e →
      OnFindSessionsComplete true s = .returned { s with
        GEngine := some
          ⟨e.ScreenMessages ++ SessionSearch.SearchResults.map searchResultMessage⟩ } ∧
      (surfacedBy s (OnFindSessionsComplete true s)).length =
        SessionSearch.SearchResults.length ∧
      (∀ (i : Nat) (r : FOnlineSessionSearchResult),
        SessionSearch.SearchResults[i]? = some r →
        (surfacedBy s (OnFindSessionsComplete true s))[i]? =
          some { Key := -1, TimeToDisplay := 15, DisplayColor := .Cyan,
                 DebugMessage :=
                   "Id: " ++ r.GetSessionIdStr ++ ", User: " ++ r.Session.OwningUserName })) ∧
    (s.GEngine = none →
      OnFindSessionsComplete true s = .returned s ∧
      surfacedBy s (OnFindSessionsComplete true s) = []) := by
  have hret : ∃ s', OnFindSessionsComplete true s = .returned s' :=
    ⟨{ s with
        GEngine := SessionSearch.SearchResults.foldl OnFindSessionsComplete_body s.GEngine },
      by simp only [OnFindSessionsComplete, hS]⟩
  refine ⟨hret, ?_, ?_⟩
  · intro e hE
    have hrun := OnFindSessionsComplete_prints true s e SessionSearch hE hS
    have hs : surfacedBy s (OnFindSessionsComplete true s) =
        SessionSearch.SearchResults.map searchResultMessage := by
      rw [hrun]
      exact surfacedBy_returned s _ e _ hE rfl
    refine ⟨hrun, by simp [hs], ?_⟩
    intro i r hr
    simp [hs, hr, searchResultMessage]
  · intro hN
    have hrun : OnFindSessionsComplete true s = .returned s := by
      cases s
      simp_all [OnFindSessionsComplete, foldl_body_none]
    refine ⟨hrun, ?_⟩
    rw [hrun]
    simp [surfacedBy, Outcome.state]

/-- Witness for C3: the records `A`/`alice` and `B`/`bob` give two messages, in this
order. -/
theorem OnFindSessionsComplete_surfaces_each_result_in_order_witness :
    twoResultsState.GEngine = some ⟨[]⟩ ∧
    twoResultsState.This.SessionSearch =
      some { emptySearch with SearchResults := [recordA, recordB] } ∧
    (surfacedBy twoResultsState (OnFindSessionsComplete true twoResultsState)).length = 2 ∧
    (surfacedBy twoResultsState (OnFindSessionsComplete true twoResultsState))[0]? =
      some ⟨-1, 15, .Cyan, "Id: A, User: alice"⟩ ∧
    (surfacedBy twoResultsState (OnFindSessionsComplete true twoResultsState))[1]? =
      some ⟨-1, 15, .Cyan, "Id: B, User: bob"⟩ ∧
    twoResultsNoEngineState.GEngine = none ∧
    surfacedBy twoResultsNoEngineState
      (OnFindSessionsComplete true twoResultsNoEngineState) = [] :=
  ⟨rfl, rfl,
    ((OnFindSessionsComplete_surfaces_each_result_in_order twoResultsState
      { emptySearch with SearchResults := [recordA, recordB] } rfl).2.1 ⟨[]⟩ rfl).2.1,
    ((OnFindSessionsComplete_surfaces_each_result_in_order twoResultsState
      { emptySearch with SearchResults := [recordA, recordB] } rfl).2.1 ⟨[]⟩ rfl).2.2
        0 recordA rfl,
    ((OnFindSessionsComplete_surfaces_each_result_in_order twoResultsState
      { emptySearch with SearchResults := [recordA, recordB] } rfl).2.1 ⟨[]⟩ rfl).2.2
        1 recordB rfl,
    rfl,
    ((OnFindSessionsComplete_surfaces_each_result_in_order twoResultsNoEngineState
      { emptySearch with SearchResults := [recordA, recordB] } rfl).2.2 rfl).2⟩

/-- Counterexample to C3 as stated: the search holds the two records `A`/`alice` and
`B`/`bob`, `GEngine` is null; the callback returns and nothing is put on the screen. -/
theorem OnFindSessionsComplete_without_engine_surfaces_nothing :
    twoResultsNoEngineState.This.SessionSearch =
      some { emptySearch with SearchResults := [recordA, recordB] } ∧
    OnFindSessionsComplete true twoResultsNoEngineState = .returned twoResultsNoEngineState ∧
    (surfacedBy twoResultsNoEngineState
      (OnFindSessionsComplete true twoResultsNoEngineState)).length ≠ 2 := by
  refine ⟨rfl, ?_, ?_⟩
  · simp [OnFindSessionsComplete, twoResultsNoEngineState, mkState,
      OnFindSessionsComplete_body, printOnScreen]
  · simp [OnFindSessionsComplete, twoResultsNoEngineState, mkState,
      OnFindSessionsComplete_body, printOnScreen, surfacedBy, screenOf, Outcome.state]

/-- Claim C4, the code at the failing input: the search object holds the record
`A`/`alice`, `GEngine` is not null, and `OnFindSessionsComplete(false)` puts the
message of that record on the screen, exactly as `OnFindSessionsComplete(true)` does. -/
theorem OnFindSessionsComplete_failure_still_surfaces_results :
    surfacedBy oneResultState (OnFindSessionsComplete false oneResultState) =
      [⟨-1, 15, .Cyan, "Id: A, User: alice"⟩] ∧
    OnFindSessionsComplete false oneResultState =
      OnFindSessionsComplete true oneResultState := by
  refine ⟨?_, rfl⟩
  rw [OnFindSessionsComplete_prints false oneResultState ⟨[]⟩
    { emptySearch with SearchResults := [recordA] } rfl rfl]
  simp [surfacedBy, screenOf, Outcome.state, oneResultState, mkState, searchResultMessage,
    recordA, FOnlineSessionSearchResult.GetSessionIdStr, emptySearch]

/-! ## OnCreateSessionComplete -/

/-- Claim C6, as amended: when `GEngine` is not null, `OnCreateSessionComplete(n, true)`
changes nothing but the screen, on which it puts exactly one message, the blue
`Created session: n`, which carries the session name `n`. When `GEngine` is null it
changes nothing and nothing is put on the screen. The character itself is left as it
was in both cases. -/
theorem OnCreateSessionComplete_success_surfaces_name (s : State) (n : FName) :
    (∀ e, s.GEngine = some e →
      OnCreateSessionComplete n true s = { s with
        GEngine := some
          ⟨e.ScreenMessages ++ [⟨-1, 15, .Blue, "Created session: " ++ n⟩]⟩ } ∧
      surfacedBy s (.returned (OnCreateSessionComplete n true s)) =
        [⟨-1, 15, .Blue, "Created session: " ++ n⟩]) ∧
    (s.GEngine = none →
      OnCreateSessionComplete n true s = s ∧
      surfacedBy s (.returned (OnCreateSessionComplete n true s)) = []) ∧
    (OnCreateSessionComplete n true s).This = s.This := by
  refine ⟨?_, ?_, by simp [OnCreateSessionComplete]⟩
  · intro e hE
    have hrun : OnCreateSessionComplete n true s = { s with
        GEngine := some
          ⟨e.ScreenMessages ++ [⟨-1, 15, .Blue, "Created session: " ++ n⟩]⟩ } := by
      simp [OnCreateSessionComplete, hE, printOnScreen, UEngine.AddOnScreenDebugMessage]
    refine ⟨hrun, ?_⟩
    rw [hrun]
    exact surfacedBy_returned s _ e _ hE rfl
  · intro hN
    have hrun : OnCreateSessionComplete n true s = s := by
      cases s
      simp_all [OnCreateSessionComplete, printOnScreen]
    refine ⟨hrun, ?_⟩
    rw [hrun]
    simp [surfacedBy, Outcome.state]

/-- Witness for C6: the name `GameSession` is shown as `Created session: GameSession`;
without an engine nothing is shown. -/
theorem OnCreateSessionComplete_success_surfaces_name_witness :
    readyState.GEngine = some ⟨[]⟩ ∧
    surfacedBy readyState (.returned (OnCreateSessionComplete "GameSession" true readyState)) =
      [⟨-1, 15, .Blue, "Created session: GameSession"⟩] ∧
    noEngineState.GEngine = none ∧
    OnCreateSessionComplete "Other" true noEngineState = noEngineState :=
  ⟨rfl,
    ((OnCreateSessionComplete_success_surfaces_name readyState "GameSession").1 ⟨[]⟩ rfl).2,
    rfl,
    ((OnCreateSessionComplete_success_surfaces_name noEngineState "Other").2.1 rfl).1⟩

/-- Counterexample to C6 as stated: with `GEngine` null, `OnCreateSessionComplete`
called with `GameSession` and success changes nothing and shows no name. -/
theorem OnCreateSessionComplete_success_without_engine_surfaces_nothing :
    OnCreateSessionComplete "GameSession" true noEngineState = noEngineState ∧
    surfacedBy noEngineState
      (.returned (OnCreateSessionComplete "GameSession" true noEngineState)) = [] := by
  constructor <;>
    simp [OnCreateSessionComplete, noEngineState, mkState, printOnScreen, surfacedBy,
      screenOf, Outcome.state]

/-- Claim C7, as amended: `OnCreateSessionComplete(n, false)` does the same for every
name `n`, so no session name is shown. When `GEngine` is not null it changes nothing
but the screen, on which it puts exactly one message, the red
`Failed to create session!`. When `GEngine` is null it changes nothing and nothing is
put on the screen. The character itself is left as it was in both cases. -/
theorem OnCreateSessionComplete_failure_is_generic
    (s : State) (n m : FName) :
    OnCreateSessionComplete n false s = OnCreateSessionComplete m false s ∧
    (∀ e, s.GEngine = some e →
      OnCreateSessionComplete n false s = { s with
        GEngine := some
          ⟨e.ScreenMessages ++ [⟨-1, 15, .Red, "Failed to create session!"⟩]⟩ } ∧
      surfacedBy s (.returned (OnCreateSessionComplete n false s)) =
        [⟨-1, 15, .Red, "Failed to create session!"⟩]) ∧
    (s.GEngine = none →
      OnCreateSessionComplete n false s = s ∧
      surfacedBy s (.returned (OnCreateSessionComplete n false s)) = []) ∧
    (OnCreateSessionComplete n false s).This = s.This := by
  refine ⟨by simp [OnCreateSessionComplete], ?_, ?_, by simp [OnCreateSessionComplete]⟩
  · intro e hE
    have hrun : OnCreateSessionComplete n false s = { s with
        GEngine := some
          ⟨e.ScreenMessages ++ [⟨-1, 15, .Red, "Failed to create session!"⟩]⟩ } := by
      simp [OnCreateSessionComplete, hE, printOnScreen, UEngine.AddOnScreenDebugMessage]
    refine ⟨hrun, ?_⟩
    rw [hrun]
    exact surfacedBy_returned s _ e _ hE rfl
  · intro hN
    have hrun : OnCreateSessionComplete n false s = s := by
      cases s
      simp_all [OnCreateSessionComplete, printOnScreen]
    refine ⟨hrun, ?_⟩
    rw [hrun]
    simp [surfacedBy, Outcome.state]

/-- Witness for C7: with an engine, the failure message is the only one added; without
an engine nothing is shown. -/
theorem OnCreateSessionComplete_failure_is_generic_witness :
    readyState.GEngine = some ⟨[]⟩ ∧
    surfacedBy readyState (.returned (OnCreateSessionComplete "GameSession" false readyState)) =
      [⟨-1, 15, .Red, "Failed to create session!"⟩] ∧
    noEngineState.GEngine = none ∧
    OnCreateSessionComplete "Other" false noEngineState = noEngineState :=
  ⟨rfl,
    ((OnCreateSessionComplete_failure_is_generic readyState "GameSession" "Other").2.1
      ⟨[]⟩ rfl).2,
    rfl,
    ((OnCreateSessionComplete_failure_is_generic noEngineState "Other" "Other").2.2.1
      rfl).1⟩

/-- Counterexample to C7 as stated: with `GEngine` null, `OnCreateSessionComplete`
called with failure gives no failure indication at all. -/
theorem OnCreateSessionComplete_failure_without_engine_surfaces_nothing :
    OnCreateSessionComplete "GameSession" false noEngineState = noEngineState ∧
    surfacedBy noEngineState
      (.returned (OnCreateSessionComplete "GameSession" false noEngineState)) = [] := by
  constructor <;>
    simp [OnCreateSessionComplete, noEngineState, mkState, printOnScreen, surfacedBy,
      screenOf, Outcome.state]

/-! ## Two find requests in a row -/

/-- With an engine and a search object, a broadcast to `ds` returns and adds the
messages of the records once per delegate. -/
theorem broadcastFind_prints (wasSuccessful : Bool)
    (ds : List FOnFindSessionsCompleteDelegate) (s : State) (e : UEngine)
    (SessionSearch : FOnlineSessionSearch)
    (hE : s.GEngine = some e) (hS : s.This.SessionSearch = some SessionSearch) :
    broadcastFind wasSuccessful ds s = .returned { s with
      GEngine := some ⟨e.ScreenMessages ++
        (List.replicate ds.length
          (SessionSearch.SearchResults.map searchResultMessage)).flatten⟩ } := by
  induction ds generalizing s e with
  | nil =>
      cases s
      simp_all [broadcastFind]
  | cons d rest ih =>
      cases d
      have hstep := OnFindSessionsComplete_prints wasSuccessful s e SessionSearch hE hS
      have hrest := ih
        { s with
          GEngine :=
            some ⟨e.ScreenMessages ++ SessionSearch.SearchResults.map searchResultMessage⟩ }
        ⟨e.ScreenMessages ++ SessionSearch.SearchResults.map searchResultMessage⟩ rfl hS
      simp only [broadcastFind, FOnFindSessionsCompleteDelegate.Execute, hstep,
        Outcome.andThen, hrest]
      simp [List.replicate_succ, List.append_assoc]

/-- What one call of `JoinGameSession` changes when the interface is valid and a
local player exists. -/
theorem JoinGameSession_effect (s : State) (osi : IOnlineSession) (LocalPlayer : ULocalPlayer)
    (hosi : s.This.OnlineSessionInterface = some osi)
    (hlp : s.FirstLocalPlayerFromController = some LocalPlayer) :
    ∃ s' osi', JoinGameSession s = .returned s' ∧
      s'.GEngine = s.GEngine ∧
      s'.FirstLocalPlayerFromController = s.FirstLocalPlayerFromController ∧
      s'.NewSessionSearch = s.NewSessionSearch ∧
      s'.This.FindSessionsCompleteDelegate = s.This.FindSessionsCompleteDelegate ∧
      s'.This.SessionSearch = some (JoinGameSession_SessionSearch s.NewSessionSearch) ∧
      s'.This.OnlineSessionInterface = some osi' ∧
      osi'.OnFindSessionsCompleteDelegates =
        osi.OnFindSessionsCompleteDelegates ++ [s.This.FindSessionsCompleteDelegate] :=
  ⟨_, _, JoinGameSession_calls s osi LocalPlayer hosi hlp, rfl, rfl, rfl, rfl, rfl, rfl, rfl⟩

/-- The arrival of `L` followed by the completion signal, with an engine, a search
object and an interface. -/
theorem arrive_then_trigger_prints (s : State) (e : UEngine) (osi : IOnlineSession)
    (SessionSearch : FOnlineSessionSearch)
    (hE : s.GEngine = some e)
    (hosi : s.This.OnlineSessionInterface = some osi)
    (hS : s.This.SessionSearch = some SessionSearch)
    (L : List FOnlineSessionSearchResult) (wasSuccessful : Bool) :
    ∃ s', TriggerOnFindSessionsCompleteDelegates wasSuccessful (SearchResultsArrive L s) =
        .returned s' ∧
      s'.GEngine = some ⟨e.ScreenMessages ++
        (List.replicate osi.OnFindSessionsCompleteDelegates.length
          (L.map searchResultMessage)).flatten⟩ ∧
      s'.This.OnlineSessionInterface = some osi := by
  have harr : SearchResultsArrive L s = { s with This := { s.This with
      SessionSearch := some { SessionSearch with SearchResults := L } } } := by
    simp [SearchResultsArrive, hS]
  have hb := broadcastFind_prints wasSuccessful osi.OnFindSessionsCompleteDelegates
    (SearchResultsArrive L s) e { SessionSearch with SearchResults := L }
    (by rw [harr]; exact hE) (by rw [harr])
  have hi : (SearchResultsArrive L s).This.OnlineSessionInterface = some osi := by
    rw [harr]; exact hosi
  have ht : TriggerOnFindSessionsCompleteDelegates wasSuccessful (SearchResultsArrive L s) =
      broadcastFind wasSuccessful osi.OnFindSessionsCompleteDelegates
        (SearchResultsArrive L s) := by
    simp only [TriggerOnFindSessionsCompleteDelegates, hi]
  exact ⟨_, ht.trans hb, rfl, hi⟩

/-- The run `joinTwiceThenComplete`, step by step. -/
theorem joinTwiceThenComplete_prints
    (s : State) (e : UEngine) (osi : IOnlineSession) (LocalPlayer : ULocalPlayer)
    (hE : s.GEngine = some e)
    (hosi : s.This.OnlineSessionInterface = some osi)
    (hlp : s.FirstLocalPlayerFromController = some LocalPlayer)
    (L : List FOnlineSessionSearchResult) (wasSuccessful : Bool) :
    ∃ s', joinTwiceThenComplete L wasSuccessful s = .returned s' ∧
      s'.GEngine = some ⟨e.ScreenMessages ++
        (List.replicate (osi.OnFindSessionsCompleteDelegates.length + 2)
          (L.map searchResultMessage)).flatten⟩ ∧
      ∃ osi', s'.This.OnlineSessionInterface = some osi' ∧
        osi'.OnFindSessionsCompleteDelegates =
          osi.OnFindSessionsCompleteDelegates ++
            [s.This.FindSessionsCompleteDelegate, s.This.FindSessionsCompleteDelegate] := by
  obtain ⟨s1, osi1, hj1, hg1, hp1, -, hd1, -, hi1, hl1⟩ :=
    JoinGameSession_effect s osi LocalPlayer hosi hlp
  obtain ⟨s2, osi2, hj2, hg2, -, -, -, hs2, hi2, hl2⟩ :=
    JoinGameSession_effect s1 osi1 LocalPlayer hi1 (hp1.trans hlp)
  obtain ⟨s3, ht, hg3, hi3⟩ :=
    arrive_then_trigger_prints s2 e osi2 _ (hg2.trans (hg1.trans hE)) hi2 hs2 L wasSuccessful
  refine ⟨s3, ?_, ?_, osi2, hi3, ?_⟩
  · simp only [joinTwiceThenComplete, hj1, Outcome.andThen, hj2, ht]
  · rw [hg3, hl2, hl1]
    simp
  · rw [hl2, hl1, hd1]
    simp

/-- Claim C5, as amended: with an engine, a valid session interface and a local
player, two calls of `JoinGameSession` add the find delegate twice (the interface
then holds two more than before), and when the records `L` arrive and the interface
signals completion, every added delegate prints all of `L`: each record is shown once
per added delegate, that is twice when none was added before. -/
theorem joinTwice_surfaces_results_once_per_registration
    (s : State) (e : UEngine) (osi : IOnlineSession) (LocalPlayer : ULocalPlayer)
    (hE : s.GEngine = some e)
    (hosi : s.This.OnlineSessionInterface = some osi)
    (hlp : s.FirstLocalPlayerFromController = some LocalPlayer)
    (L : List FOnlineSessionSearchResult) (wasSuccessful : Bool) :
    (∃ s' osi', joinTwiceThenComplete L wasSuccessful s = .returned s' ∧
      s'.This.OnlineSessionInterface = some osi' ∧
      osi'.OnFindSessionsCompleteDelegates.length =
        osi.OnFindSessionsCompleteDelegates.length + 2) ∧
    surfacedBy s (joinTwiceThenComplete L wasSuccessful s) =
      (List.replicate (osi.OnFindSessionsCompleteDelegates.length + 2)
        (L.map searchResultMessage)).flatten ∧
    (∀ m, (surfacedBy s (joinTwiceThenComplete L wasSuccessful s)).count m =
      (osi.OnFindSessionsCompleteDelegates.length + 2) *
        (L.map searchResultMessage).count m) ∧
    (osi.OnFindSessionsCompleteDelegates = [] →
      surfacedBy s (joinTwiceThenComplete L wasSuccessful s) =
        L.map searchResultMessage ++ L.map searchResultMessage) := by
  obtain ⟨s', hrun, hscreen, osi', hosi', hdel⟩ :=
    joinTwiceThenComplete_prints s e osi LocalPlayer hE hosi hlp L wasSuccessful
  have hs : surfacedBy s (joinTwiceThenComplete L wasSuccessful s) =
      (List.replicate (osi.OnFindSessionsCompleteDelegates.length + 2)
        (L.map searchResultMessage)).flatten := by
    rw [hrun]
    exact surfacedBy_returned s s' e _ hE hscreen
  refine ⟨⟨s', osi', hrun, hosi', by simp [hdel]⟩, hs, ?_, ?_⟩
  · intro m
    rw [hs, List.count_flatten]
    simp [List.map_replicate, List.sum_replicate]
  · intro hnone
    rw [hs, hnone]
    simp [List.replicate_succ]

/-- Witness for C5: from `readyState`, with the single record `A`/`alice`, its message
is shown twice. -/
theorem joinTwice_surfaces_results_once_per_registration_witness :
    readyState.GEngine = some ⟨[]⟩ ∧
    readyState.This.OnlineSessionInterface = some idleInterface ∧
    readyState.FirstLocalPlayerFromController = some playerOne ∧
    surfacedBy readyState (joinTwiceThenComplete [recordA] true readyState) =
      [recordA].map searchResultMessage ++ [recordA].map searchResultMessage :=
  ⟨rfl, rfl, rfl,
    (joinTwice_surfaces_results_once_per_registration readyState ⟨[]⟩ idleInterface
      playerOne rfl rfl rfl [recordA] true).2.2.2 rfl⟩

/-- Counterexample to C5 as stated: from `readyState`, where no delegate is added
yet, two calls of `JoinGameSession` followed by the arrival of the single record
`A`/`alice` and the completion signal show that record twice, not once. -/
theorem joinTwice_duplicates_each_result :
    readyState.This.OnlineSessionInterface = some idleInterface ∧
    idleInterface.OnFindSessionsCompleteDelegates = [] ∧
    surfacedBy readyState (joinTwiceThenComplete [recordA] true readyState) =
      [ ⟨-1, 15, .Cyan, "Id: A, User: alice"⟩, ⟨-1, 15, .Cyan, "Id: A, User: alice"⟩ ] ∧
    (surfacedBy readyState (joinTwiceThenComplete [recordA] true readyState)).count
      ⟨-1, 15, .Cyan, "Id: A, User: alice"⟩ ≠ 1 := by
  have h : surfacedBy readyState (joinTwiceThenComplete [recordA] true readyState) =
      [ ⟨-1, 15, .Cyan, "Id: A, User: alice"⟩, ⟨-1, 15, .Cyan, "Id: A, User: alice"⟩ ] := by
    obtain ⟨s', hrun, hscreen, -⟩ :=
      joinTwiceThenComplete_prints readyState ⟨[]⟩ idleInterface playerOne rfl rfl rfl
        [recordA] true
    rw [hrun]
    exact surfacedBy_returned readyState s' ⟨[]⟩ _ rfl hscreen
  refine ⟨rfl, rfl, h, ?_⟩
  rw [h]
  simp

/-! ## The find callback never meets a null search object -/

theorem CreateGameSession_keeps_search (s s' : State)
    (h : CreateGameSession s = .returned s') :
    s'.This.SessionSearch = s.This.SessionSearch ∧
    ∀ osi', s'.This.OnlineSessionInterface = some osi' →
      ∃ osi, s.This.OnlineSessionInterface = some osi ∧
        osi'.OnFindSessionsCompleteDelegates = osi.OnFindSessionsCompleteDelegates := by
  unfold CreateGameSession at h
  cases hosi : s.This.OnlineSessionInterface with
  | none =>
      simp only [hosi] at h
      cases h
      exact ⟨rfl, fun osi' h' => by rw [hosi] at h'; cases h'⟩
  | some osi =>
      cases hlp : s.FirstLocalPlayerFromController with
      | none => simp [hosi, hlp] at h
      | some lp =>
          simp only [hosi, hlp, Outcome.returned.injEq] at h
          subst h
          refine ⟨rfl, fun osi' h' => ⟨osi, rfl, ?_⟩⟩
          simp only [Option.some.injEq] at h'
          subst h'
          cases (osi.GetNamedSession NAME_GameSession).1 <;>
            simp [IOnlineSession.GetNamedSession, IOnlineSession.CreateSession,
              IOnlineSession.record, IOnlineSession.DestroySession,
              IOnlineSession.AddOnCreateSessionCompleteDelegate_Handle]

theorem JoinGameSession_sets_search (s s' : State)
    (h : JoinGameSession s = .returned s') :
    (s' = s ∧ s.This.OnlineSessionInterface = none) ∨ s'.This.SessionSearch.isSome = true := by
  unfold JoinGameSession at h
  cases hosi : s.This.OnlineSessionInterface with
  | none =>
      simp only [hosi] at h
      cases h
      exact Or.inl ⟨rfl, rfl⟩
  | some osi =>
      cases hlp : s.FirstLocalPlayerFromController with
      | none => simp [hosi, hlp] at h
      | some lp =>
          simp only [hosi, hlp, Outcome.returned.injEq] at h
          subst h
          exact Or.inr rfl

theorem foldl_create_This (SessionName : FName) (wasSuccessful : Bool)
    (ds : List FOnCreateSessionCompleteDelegate) (s : State) :
    (ds.foldl (fun s d => d.Execute SessionName wasSuccessful s) s).This = s.This := by
  induction ds generalizing s with
  | nil => rfl
  | cons d rest ih =>
      cases d
      rw [List.foldl, ih]
      cases wasSuccessful <;>
        simp [FOnCreateSessionCompleteDelegate.Execute, OnCreateSessionComplete]

theorem TriggerOnCreateSessionCompleteDelegates_This (SessionName : FName)
    (wasSuccessful : Bool) (s : State) :
    (TriggerOnCreateSessionCompleteDelegates SessionName wasSuccessful s).This = s.This := by
  unfold TriggerOnCreateSessionCompleteDelegates
  cases s.This.OnlineSessionInterface with
  | none => rfl
  | some osi => exact foldl_create_This _ _ _ _

theorem OnFindSessionsComplete_This (wasSuccessful : Bool) (s s' : State)
    (h : OnFindSessionsComplete wasSuccessful s = .returned s') : s'.This = s.This := by
  unfold OnFindSessionsComplete at h
  cases hS : s.This.SessionSearch with
  | none => simp [hS] at h
  | some srch =>
      simp only [hS, Outcome.returned.injEq] at h
      subst h
      rfl

theorem broadcastFind_This (wasSuccessful : Bool)
    (ds : List FOnFindSessionsCompleteDelegate) (s s' : State)
    (h : broadcastFind wasSuccessful ds s = .returned s') : s'.This = s.This := by
  induction ds generalizing s with
  | nil =>
      simp only [broadcastFind, Outcome.returned.injEq] at h
      rw [h]
  | cons d rest ih =>
      cases d
      simp only [broadcastFind, FOnFindSessionsCompleteDelegate.Execute] at h
      cases hstep : OnFindSessionsComplete wasSuccessful s with
      | crashed s1 => simp [hstep, Outcome.andThen] at h
      | returned s1 =>
          simp only [hstep, Outcome.andThen] at h
          rw [ih s1 h, OnFindSessionsComplete_This wasSuccessful s s1 hstep]

theorem broadcastFind_returns (wasSuccessful : Bool)
    (ds : List FOnFindSessionsCompleteDelegate) (s : State)
    (h : ds ≠ [] → s.This.SessionSearch.isSome = true) :
    ∃ s', broadcastFind wasSuccessful ds s = .returned s' := by
  induction ds generalizing s with
  | nil => exact ⟨s, rfl⟩
  | cons d rest ih =>
      cases d
      have hsome := h (by simp)
      obtain ⟨srch, hS⟩ := Option.isSome_iff_exists.mp hsome
      have hstep : OnFindSessionsComplete wasSuccessful s = .returned { s with
          GEngine := srch.SearchResults.foldl OnFindSessionsComplete_body s.GEngine } := by
        simp [OnFindSessionsComplete, hS]
      obtain ⟨s', hs'⟩ := ih
        { s with GEngine := srch.SearchResults.foldl OnFindSessionsComplete_body s.GEngine }
        (fun _ => hsome)
      exact ⟨s', by
        simp only [broadcastFind, FOnFindSessionsCompleteDelegate.Execute, hstep,
          Outcome.andThen, hs']⟩

/-- The invariant: a find delegate added to the interface implies a search object. -/
theorem Reachable_search_set (s : State) (h : Reachable s) :
    ∀ osi, s.This.OnlineSessionInterface = some osi →
      osi.OnFindSessionsCompleteDelegates ≠ [] → s.This.SessionSearch.isSome = true := by
  induction h with
  | constructed g sub lp fresh hnew =>
      intro osi hosi hne
      cases sub with
      | none => simp [ASteamSeshCharacter.construct] at hosi
      | some sb =>
          simp only [ASteamSeshCharacter.construct] at hosi
          exact absurd (hnew sb osi rfl hosi) hne
  | step s s' ev _ hev ih =>
      intro osi' hosi' hne
      cases ev with
      | CreateGameSession =>
          obtain ⟨hS, hI⟩ := CreateGameSession_keeps_search s s' hev
          obtain ⟨osi, hosi, hd⟩ := hI osi' hosi'
          rw [hS]
          exact ih osi hosi (by rw [← hd]; exact hne)
      | JoinGameSession =>
          rcases JoinGameSession_sets_search s s' hev with ⟨rfl, hnone⟩ | hsome
          · rw [hnone] at hosi'
            cases hosi'
          · exact hsome
      | CreateSessionComplete n b =>
          simp only [Event.apply, Outcome.returned.injEq] at hev
          have hT := TriggerOnCreateSessionCompleteDelegates_This n b s
          rw [hev] at hT
          rw [hT] at hosi' ⊢
          exact ih osi' hosi' hne
      | FindSessionsComplete b =>
          simp only [Event.apply, TriggerOnFindSessionsCompleteDelegates] at hev
          cases hosi : s.This.OnlineSessionInterface with
          | none =>
              simp only [hosi, Outcome.returned.injEq] at hev
              subst hev
              rw [hosi] at hosi'
              cases hosi'
          | some osi =>
              simp only [hosi] at hev
              have hT := broadcastFind_This b _ s s' hev
              rw [hT] at hosi' ⊢
              exact ih osi' hosi' hne
      | SearchResultsArrive L =>
          simp only [Event.apply, Outcome.returned.injEq] at hev
          subst hev
          cases hS : s.This.SessionSearch with
          | none =>
              simp only [SteamSesh.SearchResultsArrive, hS] at hosi' ⊢
              have := ih osi' hosi' hne
              rw [hS] at this
              exact this
          | some srch => simp [SteamSesh.SearchResultsArrive, hS]
      | SessionsChange l =>
          simp only [Event.apply, Outcome.returned.injEq] at hev
          subst hev
          cases hosi : s.This.OnlineSessionInterface with
          | none =>
              simp only [SteamSesh.SessionsChange, hosi] at hosi'
              cases hosi'
          | some osi =>
              simp only [SteamSesh.SessionsChange, hosi, Option.some.injEq] at hosi' ⊢
              subst hosi'
              exact ih osi hosi hne
      | WorldChanges g lp =>
          simp only [Event.apply, Outcome.returned.injEq] at hev
          subst hev
          exact ih osi' hosi' hne

/-- Every state in which a list of events ends, started in a reachable state, is
reachable. -/
theorem Reachable_of_runEvents (evs : List Event) (s s' : State) (h : Reachable s)
    (hrun : runEvents evs s = .returned s') : Reachable s' := by
  induction evs generalizing s with
  | nil =>
      simp only [runEvents, Outcome.returned.injEq] at hrun
      exact hrun ▸ h
  | cons ev rest ih =>
      simp only [runEvents] at hrun
      cases hstep : ev.apply s with
      | crashed s1 => simp [hstep, Outcome.andThen] at hrun
      | returned s1 =>
          simp only [hstep, Outcome.andThen] at hrun
          exact ih s1 (Reachable.step s s1 ev h hstep) hrun

/-- Claim C10: in every state reachable from the constructed character by calls of
`CreateGameSession` and `JoinGameSession`, completion signals and the interface's own
updates, a find delegate added to the session interface implies that `SessionSearch`
is set; hence a find completion delivered through the added delegates always returns,
for either value of `wasSuccessful`: `OnFindSessionsComplete` never dereferences a null
`SessionSearch` there. -/
theorem reachable_find_completion_never_null (s : State) (h : Reachable s) :
    (∀ osi, s.This.OnlineSessionInterface = some osi →
      osi.OnFindSessionsCompleteDelegates ≠ [] → s.This.SessionSearch.isSome = true) ∧
    (∀ wasSuccessful, ∃ s',
      TriggerOnFindSessionsCompleteDelegates wasSuccessful s = .returned s') := by
  have hinv := Reachable_search_set s h
  refine ⟨hinv, fun b => ?_⟩
  unfold TriggerOnFindSessionsCompleteDelegates
  cases hosi : s.This.OnlineSessionInterface with
  | none => exact ⟨s, rfl⟩
  | some osi => exact broadcastFind_returns b _ s (hinv osi hosi)

/-- Witness for C10: `joinedState` is reached by one call of `JoinGameSession` on the
constructed character; its interface holds the find delegate, its search object is
set, and the completion signal returns. In `constructedState` itself, where nothing
is registered, a direct call of the callback would dereference the null pointer. -/
theorem reachable_find_completion_never_null_witness :
    Reachable joinedState ∧
    (∃ osi, joinedState.This.OnlineSessionInterface = some osi ∧
      osi.OnFindSessionsCompleteDelegates = [.BoundToOnFindSessionsComplete]) ∧
    joinedState.This.SessionSearch.isSome = true ∧
    (∃ s', TriggerOnFindSessionsCompleteDelegates true joinedState = .returned s') ∧
    OnFindSessionsComplete true constructedState = .crashed constructedState :=
  have hr : Reachable joinedState :=
    Reachable.step constructedState joinedState .JoinGameSession
      (Reachable.constructed (some ⟨[]⟩) (some ⟨"STEAM", some idleInterface⟩)
        (some playerOne) emptySearch (by
          intro sub osi hsub hosi
          cases hsub
          cases hosi
          rfl))
      rfl
  ⟨hr, ⟨_, rfl, rfl⟩, rfl, (reachable_find_completion_never_null joinedState hr).2 true, rfl⟩

end SteamSesh
